import Mathlib

/-!
Verification development for the "solventación" proposal extraction and
deduplication/versioning pipeline.  The Python sources are embedded shallowly:
pure functions become Lean functions, the SQLite-backed store becomes explicit
state passing over a `Store` record, and fallible operations return `Except`.
Timestamps (`fecha_creacion` / `fecha_actualizacion`) are not modelled, since
no verified property depends on wall-clock time.
-/

namespace Solventacion

/-! ## Python string helpers

`pyStrip` models Python's `str.strip()` (ASCII whitespace), `pyContains`
models the Python `in` operator on strings, and `pyUpper` models `str.upper()`
for ASCII letters plus the Spanish accented letters that appear in the
keyword tables of this code base. -/

/-- Python `str.strip()`: remove leading and trailing whitespace (the ASCII
whitespace characters all the strings of this code base use). -/
def pyStrip (s : String) : String :=
  String.mk (((s.data.dropWhile Char.isWhitespace).reverse.dropWhile Char.isWhitespace).reverse)

/-- Check whether `needle` occurs as a prefix of `hay` (over character lists). -/
def listIsPre : List Char → List Char → Bool
  | [], _ => true
  | _ :: _, [] => false
  | n :: ns, h :: hs => n == h && listIsPre ns hs

/-- Check whether `needle` occurs as a contiguous sublist of `hay`. -/
def listContains (hay needle : List Char) : Bool :=
  match hay with
  | [] => needle.isEmpty
  | _ :: hs => listIsPre needle hay || listContains hs needle

/-- Python `needle in hay` for strings. -/
def pyContains (hay needle : String) : Bool :=
  listContains hay.data needle.data

/-- Python `str.upper()` restricted to ASCII plus the Spanish accented
letters occurring in this code base's keyword tables. -/
def pyUpperChar (c : Char) : Char :=
  if c = 'á' then 'Á' else if c = 'é' then 'É' else if c = 'í' then 'Í'
  else if c = 'ó' then 'Ó' else if c = 'ú' then 'Ú' else if c = 'ü' then 'Ü'
  else if c = 'ñ' then 'Ñ' else c.toUpper

/-- Python `str.upper()` on a string (see `pyUpperChar`). -/
def pyUpper (s : String) : String := String.mk (s.data.map pyUpperChar)

/-- Python `str.endswith(suf)`. -/
def pyEndsWith (s suf : String) : Bool :=
  listIsPre suf.data.reverse s.data.reverse

/-! ## SHA-256

Faithful executable implementation of SHA-256 over byte lists, used by
`Database.calcular_hash` exactly as `hashlib.sha256(...).hexdigest()` is used
in `database.py`.  32-bit machine arithmetic is `Nat` arithmetic reduced
modulo `2 ^ 32`. -/

namespace SHA256

/-- The 32-bit modulus. -/
def M32 : Nat := 4294967296

/-- 32-bit rotate right by `n` bits. -/
def rotr (n x : Nat) : Nat := ((x >>> n) ||| (x <<< (32 - n))) % M32

/-- SHA-256 `Ch` function. -/
def ch (x y z : Nat) : Nat := (x &&& y) ^^^ ((x ^^^ 4294967295) &&& z)

/-- SHA-256 `Maj` function. -/
def maj (x y z : Nat) : Nat := (x &&& y) ^^^ (x &&& z) ^^^ (y &&& z)

/-- SHA-256 upper-case sigma 0. -/
def bigSigma0 (x : Nat) : Nat := rotr 2 x ^^^ rotr 13 x ^^^ rotr 22 x

/-- SHA-256 upper-case sigma 1. -/
def bigSigma1 (x : Nat) : Nat := rotr 6 x ^^^ rotr 11 x ^^^ rotr 25 x

/-- SHA-256 lower-case sigma 0. -/
def smallSigma0 (x : Nat) : Nat := rotr 7 x ^^^ rotr 18 x ^^^ (x >>> 3)

/-- SHA-256 lower-case sigma 1. -/
def smallSigma1 (x : Nat) : Nat := rotr 17 x ^^^ rotr 19 x ^^^ (x >>> 10)

/-- The 64 SHA-256 round constants. -/
def K : List Nat :=
  [1116352408, 1899447441, 3049323471, 3921009573, 961987163,
   1508970993, 2453635748, 2870763221, 3624381080, 310598401,
   607225278, 1426881987, 1925078388, 2162078206, 2614888103,
   3248222580, 3835390401, 4022224774, 264347078, 604807628,
   770255983, 1249150122, 1555081692, 1996064986, 2554220882,
   2821834349, 2952996808, 3210313671, 3336571891, 3584528711,
   113926993, 338241895, 666307205, 773529912, 1294757372,
   1396182291, 1695183700, 1986661051, 2177026350, 2456956037,
   2730485921, 2820302411, 3259730800, 3345764771, 3516065817,
   3600352804, 4094571909, 275423344, 430227734, 506948616,
   659060556, 883997877, 958139571, 1322822218, 1537002063,
   1747873779, 1955562222, 2024104815, 2227730452, 2361852424,
   2428436474, 2756734187, 3204031479, 3329325298]

/-- The SHA-256 initial hash state. -/
def H0 : List Nat :=
  [1779033703, 3144134277, 1013904242, 2773480762,
   1359893119, 2600822924, 528734635, 1541459225]

/-- Append the standard SHA-256 padding to a byte message. -/
def padMessage (msg : List Nat) : List Nat :=
  let L := msg.length
  let k := (119 - (L % 64)) % 64
  let lenBits := 8 * L
  msg ++ [128] ++ List.replicate k 0 ++
    ([56, 48, 40, 32, 24, 16, 8, 0].map fun sh => (lenBits >>> sh) % 256)

/-- Split a byte list (whose length is a multiple of 64, as every padded
message is) into successive 64-byte chunks. -/
def chunks64 (l : List Nat) : List (List Nat) :=
  (List.range (l.length / 64)).map fun i => (l.drop (64 * i)).take 64

/-- Decode the sixteen big-endian 32-bit words of a 64-byte chunk. -/
def words16 (block : List Nat) : List Nat :=
  (List.range 16).map fun i =>
    (block.getD (4 * i) 0) <<< 24 + (block.getD (4 * i + 1) 0) <<< 16 +
    (block.getD (4 * i + 2) 0) <<< 8 + block.getD (4 * i + 3) 0

/-- One step of the message-schedule extension. -/
def stepW (w : List Nat) : List Nat :=
  let i := w.length
  w ++ [(w.getD (i - 16) 0 + smallSigma0 (w.getD (i - 15) 0) +
         w.getD (i - 7) 0 + smallSigma1 (w.getD (i - 2) 0)) % M32]

/-- Extend sixteen schedule words to sixty-four. -/
def schedule (first16 : List Nat) : List Nat :=
  (List.range 48).foldl (fun w _ => stepW w) first16

/-- One SHA-256 round: `st` is the eight-word working state, `p` the pair of
the current schedule word and round constant. -/
def round (st : List Nat) (p : Nat × Nat) : List Nat :=
  match st with
  | [a, b, c, d, e, f, g, h] =>
    let t1 := (h + bigSigma1 e + ch e f g + p.2 + p.1) % M32
    let t2 := (bigSigma0 a + maj a b c) % M32
    [(t1 + t2) % M32, a, b, c, (d + t1) % M32, e, f, g]
  | other => other

/-- Compress one 64-byte chunk into the running hash state. -/
def compress (h : List Nat) (block : List Nat) : List Nat :=
  let w := schedule (words16 block)
  let st := (w.zip K).foldl round h
  (h.zip st).map fun p => (p.1 + p.2) % M32

/-- SHA-256 of a byte message, as 32 bytes. -/
def sha256 (msg : List Nat) : List Nat :=
  let final := (chunks64 (padMessage msg)).foldl compress H0
  final.flatMap fun wd => [wd >>> 24 % 256, wd >>> 16 % 256, wd >>> 8 % 256, wd % 256]

/-- Lower-case hexadecimal digit. -/
def hexChar (n : Nat) : Char :=
  if n < 10 then Char.ofNat (48 + n) else Char.ofNat (87 + n)

/-- Lower-case hexadecimal rendering of a byte list (two digits per byte),
as produced by `hexdigest()`. -/
def hexdigest (bytes : List Nat) : String :=
  String.mk (bytes.flatMap fun b => [hexChar (b / 16), hexChar (b % 16)])

/-- UTF-8 encoding of one character, as in Python's `str.encode('utf-8')`. -/
def utf8Char (c : Char) : List Nat :=
  let n := c.toNat
  if n < 128 then [n]
  else if n < 2048 then [192 + n / 64, 128 + n % 64]
  else if n < 65536 then [224 + n / 4096, 128 + (n / 64) % 64, 128 + n % 64]
  else [240 + n / 262144, 128 + (n / 4096) % 64, 128 + (n / 64) % 64, 128 + n % 64]

/-- UTF-8 encoding of a string. -/
def utf8Encode (s : String) : List Nat := s.data.flatMap utf8Char

end SHA256

/-! ## `database.py` — the SQLite-backed store

The store is embedded as an explicit record of the two tables the claims
concern (`propuestas`, `versiones_propuestas`) plus their `AUTOINCREMENT`
counters.  The `entes` / `fuentes_financiamiento` tables are not modelled:
entities and funding sources appear only as their integer ids, and no claim
touches `get_or_create_ente` / `get_or_create_fuente`.  `TIMESTAMP` columns
are omitted (wall-clock time).

Each `with self.get_connection()` block is one SQLite transaction: on success
its writes are committed, on an exception they are rolled back and the
exception propagates.  Crucially, `crear_version` opens its *own* connection,
so when `insertar_propuesta` / `actualizar_propuesta_con_version` call it
from inside their open write transaction, the inner connection's `INSERT`
must wait for the write lock the outer transaction already holds.  SQLite
never grants it: the inner `execute` raises
`sqlite3.OperationalError: database is locked` after the busy timeout, the
error propagates, and the outer context manager rolls everything back and
re-raises.  (Verified against SQLite's documented locking protocol: a second
connection's write while the first holds its RESERVED lock fails
deterministically.)  Consequently these two operations never return — they
raise on every input — and no call commits anything.  Each operation is
embedded as a function returning the raised error paired with the committed
store after the call, which the rollback leaves equal to the input store. -/

namespace Database

/-- A row of the `propuestas` table (timestamps omitted).  The schema
declares `hash_contenido TEXT UNIQUE NOT NULL` — a *global* uniqueness
constraint, not scoped per entity/funding source. -/
structure Propuesta where
  id : Nat
  ente_id : Nat
  fuente_financiamiento_id : Nat
  numero : Nat
  observacion_texto : Option String
  propuesta_texto : String
  observacion_html : Option String
  propuesta_html : String
  archivo_origen : Option String
  tipo_archivo : Option String
  hoja_origen : Option String
  hash_contenido : String
  version_actual : Nat
  es_duplicado : Bool
  propuesta_original_id : Option Nat
deriving Repr, DecidableEq

/-- A row of the `versiones_propuestas` table (timestamps omitted).  Subject
to `UNIQUE(propuesta_id, version)`. -/
structure VersionPropuesta where
  id : Nat
  propuesta_id : Nat
  version : Nat
  observacion_texto : Option String
  propuesta_texto : String
  observacion_html : Option String
  propuesta_html : String
  motivo_cambio : String
  hash_contenido : String
deriving Repr, DecidableEq

/-- The committed database state: the two relevant tables in rowid order,
plus their `AUTOINCREMENT` counters. -/
structure Store where
  propuestas : List Propuesta
  versiones : List VersionPropuesta
  nextPropuestaId : Nat
  nextVersionId : Nat
deriving Repr, DecidableEq

/-- The freshly initialised database (`init_database` on a new file). -/
def Store.vacio : Store := ⟨[], [], 1, 1⟩

/-- Errors surfaced by the store operations: `uniqueViolation` models
`sqlite3.IntegrityError: UNIQUE constraint failed`; `missingRow` models
the `TypeError` raised when `fetchone()` returned `None` and the code
subscripts it; `databaseLocked` models
`sqlite3.OperationalError: database is locked`, raised by a connection
whose write cannot acquire the lock another open transaction holds.  An
erroring operation leaves the committed store unchanged (the context
manager rolls the transaction back and re-raises). -/
inductive DBError where
  | uniqueViolation
  | missingRow
  | databaseLocked
deriving Repr, DecidableEq

/-- The content string `f"{observacion_texto}||{propuesta_texto}"` hashed by
`calcular_hash`. -/
def contenido (observacion_texto propuesta_texto : String) : String :=
  observacion_texto ++ "||" ++ propuesta_texto

/-- `Database.calcular_hash`: SHA-256 hex digest of the UTF-8 encoding of
`f"{observacion_texto}||{propuesta_texto}"`. -/
def calcular_hash (observacion_texto propuesta_texto : String) : String :=
  SHA256.hexdigest (SHA256.sha256 (SHA256.utf8Encode (contenido observacion_texto propuesta_texto)))

/-- `Database.buscar_propuesta_existente`: first row (in rowid order, as
`fetchone()` returns it) matching the fingerprint *and* the entity *and* the
funding source. -/
def buscar_propuesta_existente (s : Store) (hash_contenido : String)
    (ente_id fuente_id : Nat) : Option Propuesta :=
  s.propuestas.find? fun p =>
    p.hash_contenido == hash_contenido && p.ente_id == ente_id &&
      p.fuente_financiamiento_id == fuente_id

/-- The snapshot row `crear_version` inserts. -/
def versionNueva (s : Store) (propuesta_id version : Nat)
    (observacion_texto : Option String) (propuesta_texto : String)
    (observacion_html : Option String) (propuesta_html : String)
    (hash_contenido motivo_cambio : String) : VersionPropuesta :=
  { id := s.nextVersionId, propuesta_id := propuesta_id, version := version,
    observacion_texto := observacion_texto, propuesta_texto := propuesta_texto,
    observacion_html := observacion_html, propuesta_html := propuesta_html,
    motivo_cambio := motivo_cambio, hash_contenido := hash_contenido }

/-- `Database.crear_version`: inserts one row into `versiones_propuestas` on
its own connection, in its own transaction.  Modelled here *in isolation*,
i.e. with no other transaction holding the database's write lock: then the
insert commits unless it hits a `UNIQUE(propuesta_id, version)` violation.
The two call sites in `database.py` never provide that situation: both call
it from inside an open write transaction, so there its `INSERT` raises
`database is locked` instead — see `insertar_propuesta` and
`actualizar_propuesta_con_version` below. -/
def crear_version (s : Store) (propuesta_id version : Nat)
    (observacion_texto : Option String) (propuesta_texto : String)
    (observacion_html : Option String) (propuesta_html : String)
    (hash_contenido motivo_cambio : String) : Except DBError Store :=
  if s.versiones.any fun v => v.propuesta_id == propuesta_id && v.version == version then
    .error .uniqueViolation
  else
    .ok { s with
          versiones := s.versiones ++
            [versionNueva s propuesta_id version observacion_texto propuesta_texto
              observacion_html propuesta_html hash_contenido motivo_cambio],
          nextVersionId := s.nextVersionId + 1 }

/-- `Database.insertar_propuesta`.  Computes the fingerprint from
`observacion_texto or ''` and the proposal text, then executes the `INSERT`
inside its `with get_connection()` transaction.  The `execute` checks the
schema's *global* `UNIQUE` on `hash_contenido`: a duplicate fingerprint
raises `IntegrityError` right there and the transaction rolls back.
Otherwise the uncommitted `INSERT` succeeds and the transaction now holds
the database file's write lock — so the nested `crear_version` call, which
opens a *second* connection, can never execute its own `INSERT`: it raises
`OperationalError: database is locked` after the busy timeout, the outer
context manager rolls the pending proposal row back, and the error
propagates.  The function therefore raises on every input and never reaches
its `return propuesta_id`; the result pairs the raised error with the
committed store after the call, which equals the input store. -/
def insertar_propuesta (s : Store) (ente_id fuente_id numero : Nat)
    (observacion_texto : Option String) (propuesta_texto : String)
    (observacion_html : Option String) (propuesta_html : String)
    (archivo_origen tipo_archivo hoja_origen : Option String) :
    (Except DBError Nat) × Store :=
  let hash := calcular_hash (observacion_texto.getD "") propuesta_texto
  if s.propuestas.any fun p => p.hash_contenido == hash then
    (.error .uniqueViolation, s)
  else
    (.error .databaseLocked, s)

/-- `Database.actualizar_propuesta_con_version`.  Reads `version_actual` of
the row (subscripting `None` — `missingRow` — when the id is absent; the
`SELECT` takes no lock, so this happens before any write), bumps it,
recomputes the fingerprint, and executes the `UPDATE` — whose global
`UNIQUE` check on `hash_contenido` against every *other* row can raise
`IntegrityError`.  When the `UPDATE` succeeds (uncommitted), the transaction
holds the write lock, and the nested `crear_version` call on its second
connection raises `OperationalError: database is locked`; the context
manager rolls the pending `UPDATE` back and re-raises.  The function
therefore raises on every input and never reaches `return nueva_version`;
the result pairs the raised error with the committed store after the call,
which equals the input store. -/
def actualizar_propuesta_con_version (s : Store) (propuesta_id : Nat)
    (observacion_texto : Option String) (propuesta_texto : String)
    (observacion_html : Option String) (propuesta_html : String)
    (motivo_cambio : String) : (Except DBError Nat) × Store :=
  match s.propuestas.find? fun p => p.id == propuesta_id with
  | none => (.error .missingRow, s)
  | some fila =>
    let nueva_version := fila.version_actual + 1
    let hash := calcular_hash (observacion_texto.getD "") propuesta_texto
    if s.propuestas.any fun p => p.id != propuesta_id && p.hash_contenido == hash then
      (.error .uniqueViolation, s)
    else
      (.error .databaseLocked, s)

/-- `Database.marcar_como_duplicado`: a single `UPDATE` on its own
connection with no nested connection, so (unlike the two operations above)
its transaction commits: the row with the given id gets its duplicate flag
and original-proposal reference set; an absent id matches no row and the
store is unchanged. -/
def marcar_como_duplicado (s : Store) (propuesta_id propuesta_original_id : Nat) : Store :=
  { s with propuestas := s.propuestas.map fun p =>
      if p.id == propuesta_id then
        { p with es_duplicado := true,
                 propuesta_original_id := some propuesta_original_id }
      else p }

/-- `Database.obtener_propuestas_por_ente`: the entity's proposals ordered by
`fecha_creacion DESC`.  Creation order coincides with rowid order, so the
query is embedded as the reverse of insertion order (timestamps have only
second resolution; ties keep scan order, which reversal approximates — the
verified claims do not depend on tie order). -/
def obtener_propuestas_por_ente (s : Store) (ente_id : Nat) : List Propuesta :=
  (s.propuestas.filter fun p => p.ente_id == ente_id).reverse

/-- The stored proposal row with a given id (ids are unique in every
reachable store). -/
def filaDe (s : Store) (propuesta_id : Nat) : Option Propuesta :=
  s.propuestas.find? fun p => p.id == propuesta_id

/-- The committed stores reachable from the fresh database through the
proposal-table write operations modelled here: any sequence of insert
attempts, update attempts and duplicate markings, each contributing the
committed store it leaves behind. -/
inductive Alcanzable : Store → Prop where
  | inicial : Alcanzable Store.vacio
  | insercion (s : Store) (ente_id fuente_id numero : Nat)
      (observacion_texto : Option String) (propuesta_texto : String)
      (observacion_html : Option String) (propuesta_html : String)
      (archivo_origen tipo_archivo hoja_origen : Option String)
      (h : Alcanzable s) :
      Alcanzable (insertar_propuesta s ente_id fuente_id numero observacion_texto
        propuesta_texto observacion_html propuesta_html archivo_origen tipo_archivo
        hoja_origen).2
  | actualizacion (s : Store) (propuesta_id : Nat)
      (observacion_texto : Option String) (propuesta_texto : String)
      (observacion_html : Option String) (propuesta_html : String)
      (motivo_cambio : String) (h : Alcanzable s) :
      Alcanzable (actualizar_propuesta_con_version s propuesta_id observacion_texto
        propuesta_texto observacion_html propuesta_html motivo_cambio).2
  | duplicado (s : Store) (propuesta_id propuesta_original_id : Nat)
      (h : Alcanzable s) :
      Alcanzable (marcar_como_duplicado s propuesta_id propuesta_original_id)

end Database

/-! ## `scripts/duplicate_detector.py` — the deduplication engine

The external OpenAI call inside `detectar_duplicado_con_ia` (HTML cleaning,
prompt construction, chat completion, JSON parsing) is the delegated
similarity-judgment capability; it is embedded as a function-valued field
`judge` of the detector whose `none` outcome stands for any exception in the
`try` block (network failure, malformed JSON, ...).

`__init__` runs `OpenAI(api_key=os.getenv('OPENAI_API_KEY'))` and then sets
`use_ai = bool(os.getenv('OPENAI_API_KEY'))`.  The `openai` (v1) client
constructor raises `OpenAIError` when it receives `api_key=None` and the
variable is not otherwise available — i.e. with the variable entirely unset
no `DuplicateDetector` is ever constructed (the module-level
`detector = DuplicateDetector()` makes this an import-time crash).  An
explicitly passed *empty* string is accepted by the constructor, and
`bool('')` is `False`, so a detector with `use_ai = False` exists exactly
when the variable is set to a falsy (empty) value.  `construirDetector`
embeds this construction as a function of the environment variable. -/

namespace DuplicateDetector

/-- The JSON verdict dictionary returned by the similarity judge
(`similitud` is the 0–100 score). -/
structure IAResultado where
  es_duplicado : Bool
  es_version : Bool
  similitud : Int
  explicacion : String
  cambios_detectados : List String
deriving Repr, DecidableEq

/-- The degraded verdict built by both the "not configured" branch and the
`except` branch of `detectar_duplicado_con_ia`. -/
def resultadoCero (explicacion : String) : IAResultado :=
  { es_duplicado := false, es_version := false, similitud := 0,
    explicacion := explicacion, cambios_detectados := [] }

/-- Detector state: whether an API key is configured, and the external
judgment capability (arguments: new observation, new proposal, existing
observation, existing proposal; `none` models a failed call). -/
structure Detector where
  use_ai : Bool
  judge : Option String → String → Option String → String → Option IAResultado

/-- The error `DuplicateDetector.__init__` can raise: `OpenAI(api_key=None)`
raises `OpenAIError` before `use_ai` is ever assigned. -/
inductive InitError where
  | openAIError
deriving Repr, DecidableEq

/-- `DuplicateDetector.__init__` as a function of the `OPENAI_API_KEY`
environment variable (`none` = unset, `some v` = set to `v`) and of the
delegated judgment capability.  Unset: the client constructor raises
`OpenAIError` and no detector exists.  Set (the empty string included — the
client accepts an explicit empty key): construction succeeds with
`use_ai = bool(value)`, which is `false` exactly for the empty string. -/
def construirDetector (env_api_key : Option String)
    (judge : Option String → String → Option String → String → Option IAResultado) :
    Except InitError Detector :=
  match env_api_key with
  | none => .error .openAIError
  | some clave => .ok { use_ai := !(clave == ""), judge := judge }

/-- `DuplicateDetector.detectar_duplicado_con_ia`: degraded verdict when the
API is not configured, the judge's verdict on success, and the degraded
verdict again when the call raises. -/
def detectar_duplicado_con_ia (d : Detector) (observacion_nueva : Option String)
    (propuesta_nueva : String) (observacion_existente : Option String)
    (propuesta_existente : String) : IAResultado :=
  if !d.use_ai then resultadoCero "OpenAI API no configurada"
  else
    match d.judge observacion_nueva propuesta_nueva observacion_existente propuesta_existente with
    | some r => r
    | none => resultadoCero "Error al analizar"

/-- The classification dictionary returned by `verificar_propuesta`
(branch 1 carries no `cambios_detectados` key; it is embedded as `[]`). -/
structure Verificacion where
  es_duplicado_exacto : Bool
  es_duplicado_semantico : Bool
  es_nueva_version : Bool
  propuesta_existente_id : Option Nat
  similitud : Int
  explicacion : String
  cambios_detectados : List String
  accion_recomendada : String
deriving Repr, DecidableEq

/-- The branch-4 result of `verificar_propuesta` (`'insertar'`); its
`similitud` is `mejor_similitud if mejor_match else 0`. -/
def verificacionNueva (similitud : Int) : Verificacion :=
  { es_duplicado_exacto := false, es_duplicado_semantico := false,
    es_nueva_version := false, propuesta_existente_id := none,
    similitud := similitud, explicacion := "Propuesta única, sin duplicados detectados",
    cambios_detectados := [], accion_recomendada := "insertar" }

/-- One iteration of the comparison loop of `verificar_propuesta`: judge the
incoming pair against one stored proposal and keep it when it strictly beats
the best score so far.  In the source, `mejor_match` and `resultado_ia` are
always (re)assigned together under the single guard
`resultado['similitud'] > mejor_similitud`, so the accumulator tracks them
as one optional pair. -/
def pasoComparacion (d : Detector) (observacion_texto : Option String)
    (propuesta_texto : String) (acc : Int × Option (Database.Propuesta × IAResultado))
    (pe : Database.Propuesta) : Int × Option (Database.Propuesta × IAResultado) :=
  let resultado := detectar_duplicado_con_ia d observacion_texto propuesta_texto
    pe.observacion_texto pe.propuesta_texto
  if resultado.similitud > acc.1 then (resultado.similitud, some (pe, resultado)) else acc

/-- `DuplicateDetector.verificar_propuesta`.  Step 1: exact fingerprint
lookup scoped to (entity, funding source).  Step 2: compare against every
stored proposal of the same entity and funding source with the judge,
tracking the best score. -/
def verificar_propuesta (d : Detector) (s : Database.Store) (ente_id fuente_id : Nat)
    (observacion_texto : Option String) (propuesta_texto : String)
    (observacion_html : Option String) (propuesta_html : String) : Verificacion :=
  let hash := Database.calcular_hash (observacion_texto.getD "") propuesta_texto
  match Database.buscar_propuesta_existente s hash ente_id fuente_id with
  | some propuesta_existente =>
    { es_duplicado_exacto := true, es_duplicado_semantico := false,
      es_nueva_version := false, propuesta_existente_id := some propuesta_existente.id,
      similitud := 100, explicacion := "Propuesta idéntica encontrada (hash exacto)",
      cambios_detectados := [], accion_recomendada := "marcar_duplicado" }
  | none =>
    let propuestas_fuente :=
      (Database.obtener_propuestas_por_ente s ente_id).filter fun p =>
        p.fuente_financiamiento_id == fuente_id
    let mejor := propuestas_fuente.foldl (pasoComparacion d observacion_texto propuesta_texto)
      (0, none)
    match mejor.2 with
    | some (mejor_match, resultado_ia) =>
      if mejor.1 ≥ 95 && resultado_ia.es_duplicado then
        { es_duplicado_exacto := false, es_duplicado_semantico := true,
          es_nueva_version := false, propuesta_existente_id := some mejor_match.id,
          similitud := mejor.1, explicacion := resultado_ia.explicacion,
          cambios_detectados := resultado_ia.cambios_detectados,
          accion_recomendada := "marcar_duplicado" }
      else if mejor.1 ≥ 70 && resultado_ia.es_version then
        { es_duplicado_exacto := false, es_duplicado_semantico := false,
          es_nueva_version := true, propuesta_existente_id := some mejor_match.id,
          similitud := mejor.1, explicacion := resultado_ia.explicacion,
          cambios_detectados := resultado_ia.cambios_detectados,
          accion_recomendada := "crear_version" }
      else verificacionNueva mejor.1
    | none => verificacionNueva 0

end DuplicateDetector

/-! ## `metadata_analyzer.py` — filename metadata extraction

The two `re.search` patterns of `extraer_ente_de_nombre_archivo` and the
year pattern of `extraer_periodo` are embedded as direct left-to-right
scanners with the same leftmost-match, greedy-run semantics (neither pattern
needs backtracking: a digit run cannot absorb the following `'.'`, an
upper-case run cannot absorb the following `'_'`). -/

namespace MetadataAnalyzer

/-- `os.path.basename`: the part after the last `'/'`. -/
def basename (nombre_archivo : String) : String :=
  String.mk ((nombre_archivo.data.reverse.takeWhile fun c => !(c == '/')).reverse)

/-- The keys of the `FUENTES_FINANCIAMIENTO` dict, in insertion order with
the duplicated `'PEFCF'` key collapsed as Python dicts collapse it. -/
def FUENTES_FINANCIAMIENTO : List String :=
  ["SA", "PEFCF", "R", "PRAS", "PDP", "REA", "RRyPE"]

/-- The `ENTES_CONOCIDOS` list. -/
def ENTES_CONOCIDOS : List String :=
  ["FIDECIX", "SEPUEDE", "FIDEGAR", "FIDEAPECH", "FIDE",
   "COEPRIST", "DIF", "SEPE", "CEA", "ITE"]

/-- Attempt the pattern `\d+\.([A-Z]+)_` anchored at the head of the list;
returns the capture group. -/
def patronNumEnteAt (l : List Char) : Option String :=
  let ds := l.takeWhile Char.isDigit
  let r1 := l.dropWhile Char.isDigit
  if ds.isEmpty then none
  else
    match r1 with
    | '.' :: r2 =>
      let us := r2.takeWhile fun c => decide ('A' ≤ c) && decide (c ≤ 'Z')
      let r3 := r2.dropWhile fun c => decide ('A' ≤ c) && decide (c ≤ 'Z')
      if us.isEmpty then none
      else
        match r3 with
        | '_' :: _ => some (String.mk us)
        | _ => none
    | _ => none

/-- `re.search(r'\d+\.([A-Z]+)_', s)`: leftmost match's capture group. -/
def buscarPatronNumEnte : List Char → Option String
  | [] => none
  | c :: cs =>
    match patronNumEnteAt (c :: cs) with
    | some g => some g
    | none => buscarPatronNumEnte cs

/-- `re.search(r'^([A-Z]+)_', s)`: anchored at the start. -/
def patronEnteInicio (l : List Char) : Option String :=
  let us := l.takeWhile fun c => decide ('A' ≤ c) && decide (c ≤ 'Z')
  let r := l.dropWhile fun c => decide ('A' ≤ c) && decide (c ≤ 'Z')
  if us.isEmpty then none
  else
    match r with
    | '_' :: _ => some (String.mk us)
    | _ => none

/-- `MetadataAnalyzer.extraer_ente_de_nombre_archivo`: known acronym as a
substring of the upper-cased basename, else the `number.ACRONYM_` pattern,
else the leading `ACRONYM_` pattern, else the `"DESCONOCIDO"` sentinel. -/
def extraer_ente_de_nombre_archivo (nombre_archivo : String) : String :=
  let nombre_base := basename nombre_archivo
  match ENTES_CONOCIDOS.find? fun ente => pyContains (pyUpper nombre_base) ente with
  | some ente => ente
  | none =>
    match buscarPatronNumEnte (pyUpper nombre_base).data with
    | some g => g
    | none =>
      match patronEnteInicio (pyUpper nombre_base).data with
      | some g => g
      | none => "DESCONOCIDO"

/-- `MetadataAnalyzer.extraer_fuente_financiamiento`: codes matched as
`_CODE.` / `_CODE_` / trailing `_CODE` in the upper-cased basename, then
codes matched in sheet names; `["NO_ESPECIFICADA"]` when nothing matched. -/
def extraer_fuente_financiamiento (nombre_archivo : String)
    (contenido_hojas : Option (List String)) : List String :=
  let nombre_base := pyUpper (basename nombre_archivo)
  let paso1 := FUENTES_FINANCIAMIENTO.foldl
    (fun acc codigo =>
      if (pyContains nombre_base ("_" ++ codigo ++ ".") ||
          pyContains nombre_base ("_" ++ codigo ++ "_") ||
          pyEndsWith nombre_base ("_" ++ codigo)) && !acc.contains codigo then
        acc ++ [codigo]
      else acc) []
  let paso2 :=
    match contenido_hojas with
    | none => paso1
    | some hojas =>
      hojas.foldl
        (fun acc hoja =>
          let hoja_upper := pyUpper hoja
          FUENTES_FINANCIAMIENTO.foldl
            (fun acc2 codigo =>
              if (hoja_upper == codigo || pyContains hoja_upper ("_" ++ codigo) ||
                  pyContains hoja_upper (codigo ++ "_")) && !acc2.contains codigo then
                acc2 ++ [codigo]
              else acc2) acc) paso1
  if paso2.isEmpty then ["NO_ESPECIFICADA"] else paso2

/-- The fixed month-abbreviation table of `extraer_periodo`. -/
def MESES : List String :=
  ["ENE", "FEB", "MAR", "ABR", "MAY", "JUN", "JUL", "AGO", "SEP", "OCT", "NOV", "DIC"]

/-- `re.search(r'20\d{2}', s)`: leftmost occurrence of `20` followed by two
digits. -/
def buscarPatronAnio : List Char → Option String
  | [] => none
  | c :: cs =>
    match c, cs with
    | '2', '0' :: a :: b :: _ =>
      if a.isDigit && b.isDigit then some (String.mk ['2', '0', a, b])
      else buscarPatronAnio cs
    | _, _ => buscarPatronAnio cs

/-- `MetadataAnalyzer.extraer_periodo`: first `MES_MES` pair (iterating both
month tables in order) contained in the upper-cased basename, else a
`20xx` year, else `None`. -/
def extraer_periodo (nombre_archivo : String) : Option String :=
  let nombre_base := pyUpper (basename nombre_archivo)
  let pares := MESES.flatMap fun mes1 => MESES.map fun mes2 => mes1 ++ "_" ++ mes2
  match pares.find? fun patron => pyContains nombre_base patron with
  | some patron => some patron
  | none =>
    match buscarPatronAnio nombre_base.data with
    | some anio => some anio
    | none => none

/-- The `tipos_conocidos` list of `extraer_tipo_documento`. -/
def TIPOS_CONOCIDOS : List String := ["RRyPE", "REA", "INFORME", "REPORTE", "PROPUESTA"]

/-- `MetadataAnalyzer.extraer_tipo_documento`: first known type token
contained in the upper-cased basename (combining `REA` and `RRyPE` when both
occur), else the `"GENERAL"` sentinel.  Note that the basename is
upper-cased while the token `'RRyPE'` is mixed-case, exactly as in the
source. -/
def extraer_tipo_documento (nombre_archivo : String) : String :=
  let nombre_base := pyUpper (basename nombre_archivo)
  match TIPOS_CONOCIDOS.find? fun tipo => pyContains nombre_base tipo with
  | some tipo =>
    if pyContains nombre_base "REA" && pyContains nombre_base "RRyPE" then "REA_RRyPE"
    else tipo
  | none => "GENERAL"

end MetadataAnalyzer

/-! ## `processors/docx_processor_optimized.py` — structural DOCX extraction

The parsed document handle (python-docx) is the external parser capability:
paragraphs are embedded as records carrying their plain text together with
the styled-markup rendering that `parrafo_a_html` computes from the runs and
styles, and nested tables inside a cell carry the rendering that
`tabla_a_html` computes, plus their cells' plain texts — the only two
projections `extraer_propuestas_estructuradas` reads.  `normalizar_texto`
(NFD decomposition, combining-mark removal, upper-casing) is embedded for
the Latin accented characters relevant to the keyword tables. -/

namespace DOCXProcessorOptimized

/-- Strip the accent of a Latin accented character (NFD decomposition
followed by dropping the combining mark); other characters are unchanged. -/
def quitarDiacritico (c : Char) : Char :=
  if c = 'á' then 'a' else if c = 'é' then 'e' else if c = 'í' then 'i'
  else if c = 'ó' then 'o' else if c = 'ú' then 'u' else if c = 'ü' then 'u'
  else if c = 'ñ' then 'n'
  else if c = 'Á' then 'A' else if c = 'É' then 'E' else if c = 'Í' then 'I'
  else if c = 'Ó' then 'O' else if c = 'Ú' then 'U' else if c = 'Ü' then 'U'
  else if c = 'Ñ' then 'N' else c

/-- `DOCXProcessorOptimized.normalizar_texto`: remove diacritics and
upper-case (empty input stays empty). -/
def normalizar_texto (texto : String) : String :=
  pyUpper (String.mk (texto.data.map quitarDiacritico))

/-- A paragraph of the parsed document: its plain text and the styled HTML
that `parrafo_a_html` renders from its runs. -/
structure Para where
  text : String
  html : String
deriving Repr, DecidableEq

/-- A table nested inside a cell: the HTML that `tabla_a_html` renders for
it, and the plain texts of its cells row by row. -/
structure TablaAnidada where
  html : String
  textosCeldas : List (List String)
deriving Repr, DecidableEq

/-- A table cell: its paragraphs and its nested tables. -/
structure Cell where
  paragraphs : List Para
  tables : List TablaAnidada
deriving Repr, DecidableEq

/-- python-docx `_Cell.text`: the cell's paragraph texts joined with
newlines. -/
def Cell.text (c : Cell) : String :=
  String.intercalate "\n" (c.paragraphs.map Para.text)

/-- A table row. -/
structure Row where
  cells : List Cell
deriving Repr, DecidableEq

/-- A table. -/
structure Tabla where
  rows : List Row
deriving Repr, DecidableEq

/-- The parsed document: its tables (and free-standing paragraphs, which the
secondary scan of `extraer_propuestas_estructuradas` reads but whose result
it discards without effect on the returned list). -/
structure DocxDoc where
  tables : List Tabla
  paragraphs : List Para
deriving Repr, DecidableEq

/-- A candidate record emitted by the DOCX extractor. -/
structure DocxCandidato where
  numero : Nat
  observacion_texto : String
  observacion_html : String
  propuesta_texto : String
  propuesta_html : String
  metodo_extraccion : String
deriving Repr, DecidableEq

/-- The per-row scan state: the four variables initialised to `None` at the
top of the row loop. -/
structure ScanState where
  observacion : Option String
  observacion_html : Option String
  propuesta_html : Option String
  propuesta_texto : Option String
deriving Repr, DecidableEq

/-- One iteration of the cell loop of `extraer_propuestas_estructuradas`:
test the normalized cell text for the OBSERVACION keyword (capturing the
next cell) and for the PROPUESTA + SOLVENTACION conjunction (capturing the
next cell's paragraphs and nested tables). -/
def pasoCelda (cells : List Cell) (st : ScanState) (par : Nat × Cell) : ScanState :=
  let idx := par.1
  let cell_text_norm := normalizar_texto (pyStrip par.2.text)
  let st1 :=
    if pyContains cell_text_norm "OBSERVACION" && decide (idx + 1 < cells.length) then
      match cells.get? (idx + 1) with
      | some sig =>
        { st with
          observacion_html := some (String.join (sig.paragraphs.map Para.html)),
          observacion := some (pyStrip sig.text) }
      | none => st
    else st
  if pyContains cell_text_norm "PROPUESTA" && pyContains cell_text_norm "SOLVENTACION" then
    if decide (idx + 1 < cells.length) then
      match cells.get? (idx + 1) with
      | some sig =>
        let html := String.join (sig.paragraphs.map Para.html) ++
          String.join (sig.tables.map TablaAnidada.html)
        let texto := String.join (sig.paragraphs.map fun p => p.text ++ " ") ++
          String.join (sig.tables.map fun t =>
            String.join (t.textosCeldas.map fun fila =>
              String.join (fila.map fun celda => celda ++ " ")))
        { st1 with propuesta_html := some html, propuesta_texto := some texto }
      | none => { st1 with propuesta_html := some "", propuesta_texto := some "" }
    else { st1 with propuesta_html := some "", propuesta_texto := some "" }
  else st1

/-- Scan one row's cells. -/
def escanearFila (cells : List Cell) : ScanState :=
  cells.enum.foldl (pasoCelda cells) ⟨none, none, none, none⟩

/-- The end-of-row step: append a candidate (under the running number) iff a
non-blank proposal HTML was captured (`if propuesta_html and
propuesta_html.strip():`); observation text and HTML default to the
sentinels through Python's `or`. -/
def candidatoDeFila (numero : Nat) (cells : List Cell) : Option DocxCandidato :=
  let st := escanearFila cells
  match st.propuesta_html with
  | none => none
  | some html =>
    if html == "" || pyStrip html == "" then none
    else
      some
        { numero := numero,
          observacion_texto :=
            match st.observacion with
            | some o => if o == "" then "Sin observación" else o
            | none => "Sin observación",
          observacion_html :=
            match st.observacion_html with
            | some oh => if oh == "" then "<p>Sin observación</p>" else oh
            | none => "<p>Sin observación</p>",
          propuesta_texto := pyStrip (st.propuesta_texto.getD ""),
          propuesta_html := html,
          metodo_extraccion := "estructurado" }

/-- Fold one row into the running `(numero, propuestas)` accumulator. -/
def pasoFila (acc : Nat × List DocxCandidato) (row : Row) : Nat × List DocxCandidato :=
  match candidatoDeFila acc.1 row.cells with
  | some c => (acc.1 + 1, acc.2 ++ [c])
  | none => acc

/-- `DOCXProcessorOptimized.extraer_propuestas_estructuradas`: scan every
table and every row with a single running counter starting at 1. -/
def extraer_propuestas_estructuradas (doc : DocxDoc) : List DocxCandidato :=
  (doc.tables.foldl (fun acc tabla => tabla.rows.foldl pasoFila acc) (1, [])).2

/-- Lazily initialised OpenAI client state shared by both processors:
`use_openai_fallback = False` and no client after `__init__`. -/
structure EstadoOpenAI where
  use_openai_fallback : Bool
  tiene_cliente : Bool
deriving Repr, DecidableEq

/-- The state right after `__init__` (also the state of the module-level
singleton `processor` before any extraction). -/
def EstadoOpenAI.inicial : EstadoOpenAI := ⟨false, false⟩

/-- `_init_openai` (identical in both processors): when no client exists yet
and `OPENAI_API_KEY` is set, create the client and set the fallback flag. -/
def init_openai (env_api_key : Option String) (st : EstadoOpenAI) : EstadoOpenAI :=
  if !st.tiene_cliente then
    match env_api_key with
    | some _ => ⟨true, true⟩
    | none => st
  else st

/-- Step 7 of `process_docx`: the generative fallback `extraer_con_openai`
is invoked exactly when the structural pass returned zero candidates. -/
def process_docx_invoca_fallback (propuestas : List DocxCandidato) : Bool :=
  propuestas.length == 0

/-- Guard at the top of `extraer_con_openai`: initialise the client if
needed; the external service is actually queried iff a client exists
afterwards (otherwise the empty list is returned). -/
def extraer_con_openai_consulta_servicio (env_api_key : Option String)
    (st : EstadoOpenAI) : Bool × EstadoOpenAI :=
  let st1 := if !st.use_openai_fallback then init_openai env_api_key st else st
  (st1.tiene_cliente, st1)

end DOCXProcessorOptimized

/-! ## `processors/xlsx_processor_optimized.py` — structural XLSX extraction

`extraer_propuestas_estructuradas` reads the workbook twice: through pandas
(`df.iterrows()` over each sheet's data rows, the header row excluded) for
the values, and through openpyxl (`sheet.cell(...)`) for the styled HTML of
a value's original cell.  Cells are embedded as a value — a string, or the
NaN a blank cell parses to — paired with the `celda_a_html` rendering of the
corresponding worksheet cell.  The optional annotation fields derived by
`extraer_informacion_adicional` and the `referencia` / `clasificacion`
fields (regex matches on the row's first cell) are claim-irrelevant
metadata and are not embedded. -/

namespace XLSXProcessorOptimized

/-- A pandas cell value: a string, or the float NaN that blank cells parse
to (`str(nan) = "nan"`, truthy, not a `str` instance). -/
inductive XVal where
  | vnan
  | vstr (s : String)
deriving Repr, DecidableEq

/-- Python `str()` of a cell value. -/
def XVal.pyStr : XVal → String
  | .vnan => "nan"
  | .vstr s => s

/-- Python truthiness of a cell value (NaN is truthy; `""` is falsy). -/
def XVal.truthy : XVal → Bool
  | .vnan => true
  | .vstr s => !(s == "")

/-- Python `isinstance(v, str)`. -/
def XVal.isStr : XVal → Bool
  | .vnan => false
  | .vstr _ => true

/-- A cell as the extractor sees it: the pandas value and the
`celda_a_html` rendering of the corresponding worksheet cell. -/
structure XCell where
  val : XVal
  html : String
deriving Repr, DecidableEq

/-- A sheet: its name and its data rows (the pandas DataFrame rows, i.e.
the sheet rows below the header row). -/
structure XSheet where
  name : String
  rows : List (List XCell)
deriving Repr, DecidableEq

/-- A workbook: its sheets in `sheet_names` order. -/
structure XWorkbook where
  sheets : List XSheet
deriving Repr, DecidableEq

/-- Split a character list into maximal whitespace-free words. -/
def palabras (l : List Char) : List (List Char) :=
  l.foldr
    (fun c ws =>
      if c.isWhitespace then [] :: ws
      else
        match ws with
        | [] => [[c]]
        | w :: rest => (c :: w) :: rest)
    []

/-- `XLSXProcessorOptimized._limpiar_texto`: stringify, collapse whitespace
runs (`re.sub(r'\s+', ' ', ...)`) to single spaces, and strip — i.e. join
the whitespace-separated words with single spaces. -/
def limpiar_texto (texto : XVal) : String :=
  String.intercalate " "
    (((palabras texto.pyStr.data).filter fun w => !w.isEmpty).map String.mk)

/-- A candidate record emitted by the XLSX extractor (core fields). -/
structure XlsxCandidato where
  numero : Nat
  hoja : String
  fila : Nat
  observacion_texto : String
  observacion_html : String
  propuesta_texto : String
  propuesta_html : String
  metodo_extraccion : String
deriving Repr, DecidableEq

/-- Does this cell hold the `"PROPUESTA DE SOLVENTACIÓN"` keyword
(`isinstance(v, str) and keyword in v.upper()`)? -/
def celdaConPropuesta (v : XVal) : Bool :=
  match v with
  | .vnan => false
  | .vstr s => pyContains (pyUpper s) "PROPUESTA DE SOLVENTACIÓN"

/-- Does this cell trigger the observation capture
(`obs_cell and isinstance(obs_cell, str) and "OBSERVACIÓN" in obs_cell.upper()`)? -/
def celdaConObservacion (v : XVal) : Bool :=
  v.truthy && v.isStr && pyContains (pyUpper v.pyStr) "OBSERVACIÓN"

/-- The `for idx in range(len(row) - 1)` loop with its final `break`: the
first column among `0 .. len(row)-2` holding the proposal keyword. -/
def primeraColumnaPropuesta (row : List XCell) : Option Nat :=
  (List.range (row.length - 1)).find? fun idx =>
    celdaConPropuesta ((row.getD idx ⟨.vnan, ""⟩).val)

/-- The observation capture for a proposal-keyword column `idx`: scan the
window `range(max(0, idx - 3), idx + 1)` for the first observation-keyword
cell, and take the next cell's cleaned text together with its styled HTML
(`None` when no keyword cell is found, or when it has no next cell). -/
def observacionCapturada (row : List XCell) (idx : Nat) : Option (String × String) :=
  match (List.range' (idx - 3) (idx + 1 - (idx - 3))).find? fun obs_idx =>
      celdaConObservacion ((row.getD obs_idx ⟨.vnan, ""⟩).val) with
  | some obs_idx =>
    if obs_idx + 1 < row.length then
      let obs_cell := row.getD (obs_idx + 1) ⟨.vnan, ""⟩
      some (limpiar_texto obs_cell.val, obs_cell.html)
    else none
  | none => none

/-- Process one DataFrame row (0-based index `i`) of sheet `hoja` under the
running number: find the first keyword cell, capture the observation from
the window of three cells to the keyword's left, capture the proposal from
the next cell, and emit a candidate iff the cleaned proposal text is
non-empty. -/
def procesarFilaX (hoja : String) (numero : Nat) (i : Nat) (row : List XCell) :
    Option XlsxCandidato :=
  match primeraColumnaPropuesta row with
  | none => none
  | some idx =>
    let observacion := observacionCapturada row idx
    let prop_cell := row.getD (idx + 1) ⟨.vnan, ""⟩
    let propuesta := limpiar_texto prop_cell.val
    if !(propuesta == "") && !(pyStrip propuesta == "") then
      some
        { numero := numero, hoja := hoja, fila := i + 2,
          observacion_texto :=
            match observacion with
            | some (o, _) => if o == "" then "Sin observación" else o
            | none => "Sin observación",
          observacion_html :=
            match observacion with
            | some (_, oh) => if oh == "" then "<p>Sin observación</p>" else oh
            | none => "<p>Sin observación</p>",
          propuesta_texto := propuesta,
          propuesta_html := prop_cell.html,
          metodo_extraccion := "estructurado" }
    else none

/-- Fold one data row into the running `(numero_global, propuestas)`
accumulator. -/
def pasoFilaX (hoja : String) (acc : Nat × List XlsxCandidato) (par : Nat × List XCell) :
    Nat × List XlsxCandidato :=
  match procesarFilaX hoja acc.1 par.1 par.2 with
  | some c => (acc.1 + 1, acc.2 ++ [c])
  | none => acc

/-- `XLSXProcessorOptimized.extraer_propuestas_estructuradas`: iterate every
sheet and every data row with the single running counter `numero_global`
starting at 1. -/
def extraer_propuestas_estructuradas (wb : XWorkbook) : List XlsxCandidato :=
  (wb.sheets.foldl (fun acc sh => sh.rows.enum.foldl (pasoFilaX sh.name) acc) (1, [])).2

/-- Step 4 of `process_xlsx`: the generative fallback is invoked only when
the structural pass returned zero candidates *and* `self.use_openai_fallback`
is already set — a flag that only `_init_openai` sets and that `process_xlsx`
never initialises before testing it. -/
def process_xlsx_invoca_fallback (st : DOCXProcessorOptimized.EstadoOpenAI)
    (propuestas : List XlsxCandidato) : Bool :=
  propuestas.length == 0 && st.use_openai_fallback

end XLSXProcessorOptimized

/-! ## Claim theorems -/

/-- C7: for the filename `"12.FIDECIX_RRyPE_ENE_JUN_SA.docx"` the metadata
extractor returns entity `"FIDECIX"`, funding sources `["SA"]` and period
`"ENE_JUN"` as claimed — but document type `"GENERAL"`, not the claimed
`"RRyPE"`: `extraer_tipo_documento` upper-cases the basename (so it contains
`"RRYPE"`) and then searches it for the mixed-case token `"RRyPE"`, which
can never occur, contradicting the function's own docstring. -/
theorem claim_C7_metadatos_de_nombre_archivo :
    MetadataAnalyzer.extraer_ente_de_nombre_archivo "12.FIDECIX_RRyPE_ENE_JUN_SA.docx" =
      "FIDECIX" ∧
    MetadataAnalyzer.extraer_fuente_financiamiento "12.FIDECIX_RRyPE_ENE_JUN_SA.docx" none =
      ["SA"] ∧
    MetadataAnalyzer.extraer_periodo "12.FIDECIX_RRyPE_ENE_JUN_SA.docx" = some "ENE_JUN" ∧
    MetadataAnalyzer.extraer_tipo_documento "12.FIDECIX_RRyPE_ENE_JUN_SA.docx" = "GENERAL" := by
  refine ⟨by decide, by decide, by decide, by decide⟩

/-- C4: the DOCX pipeline invokes the generative fallback exactly when the
structural pass found nothing, but the XLSX pipeline additionally requires
`self.use_openai_fallback`, a flag that is `False` after `__init__` and that
only `_init_openai` (never called by `process_xlsx` before the test) can
set.  On a fresh processor — in particular the module-level singleton — the
XLSX fallback is therefore not invoked even when the structural pass found
zero candidates and the API key is configured (third conjunct: had
`_init_openai` been called with a configured key, it would have set the
flag). -/
theorem claim_C4_fallback_xlsx_nunca_invocado :
    (∀ l : List DOCXProcessorOptimized.DocxCandidato,
      DOCXProcessorOptimized.process_docx_invoca_fallback l = (l.length == 0)) ∧
    XLSXProcessorOptimized.process_xlsx_invoca_fallback
      DOCXProcessorOptimized.EstadoOpenAI.inicial [] = false ∧
    (DOCXProcessorOptimized.init_openai (some "sk-clave")
      DOCXProcessorOptimized.EstadoOpenAI.inicial).use_openai_fallback = true := by
  exact ⟨fun l => rfl, by decide, by decide⟩

/-- C9 counterexample: the fingerprint joins the two texts with the literal
separator `"||"`, so the distinct pairs `("a|", "b")` and `("a", "|b")`
produce the same content string `"a|||b"` and hence the same fingerprint —
refuting "no two distinct (observation, proposal) pairs produce the same
fingerprint". -/
theorem claim_C9_par_distinto_misma_huella :
    Database.calcular_hash "a|" "b" = Database.calcular_hash "a" "|b" ∧
    ¬("a|" = "a" ∧ "b" = "|b") := by
  constructor
  · simp only [Database.calcular_hash]
    rw [show Database.contenido "a|" "b" = Database.contenido "a" "|b" from by decide]
  · decide

/-- Splitting at a separator character absent from both left parts is
unambiguous. -/
theorem separador_unico :
    ∀ a b x y : List Char, '|' ∉ a → '|' ∉ b → a ++ '|' :: x = b ++ '|' :: y →
      a = b ∧ x = y := by
  intro a
  induction a with
  | nil =>
    intro b x y _ hb h
    cases b with
    | nil => simpa using h
    | cons d ds =>
      rw [List.nil_append, List.cons_append] at h
      have hd : d = '|' := (List.cons.inj h).1.symm
      refine absurd ?_ hb
      rw [← hd]
      exact List.mem_cons_self d ds
  | cons c cs ih =>
    intro b x y ha hb h
    cases b with
    | nil =>
      rw [List.cons_append, List.nil_append] at h
      have hc : c = '|' := (List.cons.inj h).1
      refine absurd ?_ ha
      rw [← hc]
      exact List.mem_cons_self c cs
    | cons d ds =>
      rw [List.cons_append, List.cons_append] at h
      have h1 := (List.cons.inj h).1
      have h2 := (List.cons.inj h).2
      have ha2 : '|' ∉ cs := fun hm => ha (List.mem_cons_of_mem _ hm)
      have hb2 : '|' ∉ ds := fun hm => hb (List.mem_cons_of_mem _ hm)
      obtain ⟨hab, hxy⟩ := ih ds x y ha2 hb2 h2
      exact ⟨by rw [h1, hab], hxy⟩

/-- C9 (amended): the fingerprint is a deterministic pure function of the
two texts, and it factors through the content string
`observación ++ "||" ++ propuesta`; distinct pairs may therefore collide
when their content strings coincide (see the counterexample), but the
encoding — hence the fingerprint input — is injective on pairs whose
observation text contains no `'|'` character. -/
theorem claim_C9_huella_determinista_colisiones :
    (∀ o1 p1 o2 p2 : String, o1 = o2 → p1 = p2 →
      Database.calcular_hash o1 p1 = Database.calcular_hash o2 p2) ∧
    (∀ o1 p1 o2 p2 : String, Database.contenido o1 p1 = Database.contenido o2 p2 →
      Database.calcular_hash o1 p1 = Database.calcular_hash o2 p2) ∧
    (∀ o1 p1 o2 p2 : String, '|' ∉ o1.data → '|' ∉ o2.data →
      Database.contenido o1 p1 = Database.contenido o2 p2 → o1 = o2 ∧ p1 = p2) := by
  refine ⟨fun o1 p1 o2 p2 ho hp => by rw [ho, hp], fun o1 p1 o2 p2 h => ?_, ?_⟩
  · simp only [Database.calcular_hash]
    rw [h]
  · intro o1 p1 o2 p2 h1 h2 h
    have hd : o1.data ++ '|' :: ('|' :: p1.data) = o2.data ++ '|' :: ('|' :: p2.data) := by
      have := congrArg String.data h
      simpa [Database.contenido, String.data_append] using this
    obtain ⟨ha, hb⟩ := separador_unico o1.data o2.data ('|' :: p1.data) ('|' :: p2.data) h1 h2 hd
    have hb2 : p1.data = p2.data := by simpa using hb
    exact ⟨String.ext ha, String.ext hb2⟩

/-- C9 witness: the determinism conjunct applied at a concrete pair, and the
injectivity conjunct applied at pipe-free concrete observations. -/
theorem claim_C9_testigo :
    Database.calcular_hash "obs" "prop" = Database.calcular_hash "obs" "prop" ∧
    ("x" : String) = "x" ∧ ("y" : String) = "y" := by
  refine ⟨claim_C9_huella_determinista_colisiones.1 "obs" "prop" "obs" "prop" rfl rfl, ?_⟩
  have h := claim_C9_huella_determinista_colisiones.2.2 "x" "y" "x" "y"
    (by decide) (by decide) rfl
  exact ⟨h.1, h.2⟩

/-- The initial snapshot row of the store the spec intends the first C1
insert to produce. -/
def c1_version : Database.VersionPropuesta :=
  { id := 1, propuesta_id := 1, version := 1, observacion_texto := some "Obs A",
    propuesta_texto := "Prop A", observacion_html := none, propuesta_html := "<p>Prop A</p>",
    motivo_cambio := "Versión inicial",
    hash_contenido := Database.calcular_hash "Obs A" "Prop A" }

/-- The proposal row of the store the spec intends the first C1 insert to
produce (entity 1, funding source 1). -/
def c1_fila : Database.Propuesta :=
  { id := 1, ente_id := 1, fuente_financiamiento_id := 1, numero := 1,
    observacion_texto := some "Obs A", propuesta_texto := "Prop A",
    observacion_html := none, propuesta_html := "<p>Prop A</p>",
    archivo_origen := none, tipo_archivo := none, hoja_origen := none,
    hash_contenido := Database.calcular_hash "Obs A" "Prop A", version_actual := 1,
    es_duplicado := false, propuesta_original_id := none }

/-- The store the spec intends the first C1 insert to produce.  No run of
the program ever commits it — every insert raises — so it serves as a
hypothetical input on which the cross-scope insert the claim describes can
be evaluated. -/
def c1_fin : Database.Store := ⟨[c1_fila], [c1_version], 2, 2⟩

/-- C1 refutation: inserting a proposal never succeeds at all — the very
first insert on the fresh database raises `database is locked` (the nested
snapshot connection cannot write while the insert's open transaction holds
the file's write lock) and commits nothing, so no scope ever receives a row
(first conjunct); and even on the store that first insert was intended to
produce, inserting the byte-identical texts into the distinct scope
(entity 2, funding source 1) raises a `UNIQUE` violation instead of storing
a second row, because the schema declares `hash_contenido TEXT UNIQUE NOT
NULL` globally rather than per (entity, funding source) scope (second
conjunct). -/
theorem claim_C1_insercion_cruzada_imposible :
    Database.insertar_propuesta Database.Store.vacio 1 1 1 (some "Obs A") "Prop A" none
      "<p>Prop A</p>" none none none =
      (.error .databaseLocked, Database.Store.vacio) ∧
    Database.insertar_propuesta c1_fin 2 1 1 (some "Obs A") "Prop A" none
      "<p>Prop A</p>" none none none = (.error .uniqueViolation, c1_fin) := by
  constructor
  · rfl
  · simp [Database.insertar_propuesta, c1_fin, c1_fila]

/-- Every attempted proposal insert raises — either the global fingerprint
`UNIQUE` violation of the `INSERT` itself, or the nested snapshot
connection's lock error — and the rolled-back committed store is exactly
the input store. -/
theorem insertar_siempre_falla (s : Database.Store) (e f num : Nat)
    (obs : Option String) (prop : String) (obsH : Option String) (propH : String)
    (arch tip hoja : Option String) :
    ∃ err, Database.insertar_propuesta s e f num obs prop obsH propH arch tip hoja =
      (.error err, s) := by
  simp only [Database.insertar_propuesta]
  split
  · exact ⟨.uniqueViolation, rfl⟩
  · exact ⟨.databaseLocked, rfl⟩

/-- Every attempted version update raises — the missing-row dereference, the
`UPDATE`'s `UNIQUE` violation, or the nested snapshot connection's lock
error — and the rolled-back committed store is exactly the input store. -/
theorem actualizar_siempre_falla (s : Database.Store) (pid : Nat)
    (obs : Option String) (prop : String) (obsH : Option String) (propH motivo : String) :
    ∃ err, Database.actualizar_propuesta_con_version s pid obs prop obsH propH motivo =
      (.error err, s) := by
  simp only [Database.actualizar_propuesta_con_version]
  split
  · exact ⟨.missingRow, rfl⟩
  · split
    · exact ⟨.uniqueViolation, rfl⟩
    · exact ⟨.databaseLocked, rfl⟩

/-- C6: both-or-neither holds for every attempted proposal insert and every
attempted version update — because no attempt commits anything at all.
Each operation raises on every input (the nested `crear_version` connection
can never write while the outer transaction holds the lock, and the
constraint checks can raise even earlier) and its rollback leaves the
committed store equal to the input store (first two conjuncts); hence every
committed store reachable through the write operations still has both
tables empty (third conjunct) — in particular no reachable store ever holds
a proposal row without its initial snapshot, or a snapshot without its
committed proposal row. -/
theorem claim_C6_todo_o_nada :
    (∀ (s : Database.Store) (e f num : Nat) (obs : Option String) (prop : String)
      (obsH : Option String) (propH : String) (arch tip hoja : Option String),
      ∃ err, Database.insertar_propuesta s e f num obs prop obsH propH arch tip hoja =
        (.error err, s)) ∧
    (∀ (s : Database.Store) (pid : Nat) (obs : Option String) (prop : String)
      (obsH : Option String) (propH motivo : String),
      ∃ err, Database.actualizar_propuesta_con_version s pid obs prop obsH propH motivo =
        (.error err, s)) ∧
    (∀ s : Database.Store, Database.Alcanzable s →
      s.propuestas = [] ∧ s.versiones = []) := by
  refine ⟨insertar_siempre_falla, actualizar_siempre_falla, ?_⟩
  intro s h
  induction h with
  | inicial => exact ⟨rfl, rfl⟩
  | insercion s e f num obs prop obsH propH arch tip hoja h ih =>
    obtain ⟨err, heq⟩ := insertar_siempre_falla s e f num obs prop obsH propH arch tip hoja
    rw [heq]
    exact ih
  | actualizacion s pid obs prop obsH propH motivo h ih =>
    obtain ⟨err, heq⟩ := actualizar_siempre_falla s pid obs prop obsH propH motivo
    rw [heq]
    exact ih
  | duplicado s pid orig h ih =>
    refine ⟨?_, ih.2⟩
    simp [Database.marcar_como_duplicado, ih.1]

/-- C6 witness: the insert conjunct applied at a concrete call on the fresh
store, the update conjunct likewise, and the reachability conjunct
discharged at the fresh store itself. -/
theorem claim_C6_testigo :
    (∃ err, Database.insertar_propuesta Database.Store.vacio 3 4 1 (some "Obs C") "Prop C"
      none "<p>Prop C</p>" (some "archivo.docx") (some "DOCX") none =
      (.error err, Database.Store.vacio)) ∧
    (∃ err, Database.actualizar_propuesta_con_version Database.Store.vacio 1 (some "Obs C")
      "Prop C" none "<p>Prop C</p>" "mejora" = (.error err, Database.Store.vacio)) ∧
    Database.Store.vacio.propuestas = [] ∧ Database.Store.vacio.versiones = [] :=
  ⟨claim_C6_todo_o_nada.1 Database.Store.vacio 3 4 1 (some "Obs C") "Prop C" none
    "<p>Prop C</p>" (some "archivo.docx") (some "DOCX") none,
   claim_C6_todo_o_nada.2.1 Database.Store.vacio 1 (some "Obs C") "Prop C" none
    "<p>Prop C</p>" "mejora",
   claim_C6_todo_o_nada.2.2 Database.Store.vacio Database.Alcanzable.inicial⟩

/-- Degraded similarity judgment: with no API key, or with every external
call failing, `detectar_duplicado_con_ia` returns the zero verdict. -/
theorem detectar_degradado (d : DuplicateDetector.Detector)
    (hd : d.use_ai = false ∨ ∀ a b c e, d.judge a b c e = none)
    (oN : Option String) (pN : String) (oE : Option String) (pE : String) :
    (DuplicateDetector.detectar_duplicado_con_ia d oN pN oE pE).similitud = 0 := by
  unfold DuplicateDetector.detectar_duplicado_con_ia
  rcases hd with h | h
  · simp [h, DuplicateDetector.resultadoCero]
  · cases hu : d.use_ai with
    | false => simp [DuplicateDetector.resultadoCero]
    | true => simp [h, DuplicateDetector.resultadoCero]

/-- With a degraded judge every comparison scores 0, so the best-match fold
never moves off its initial accumulator. -/
theorem fold_comparacion_cero (d : DuplicateDetector.Detector)
    (obs : Option String) (prop : String)
    (hd : d.use_ai = false ∨ ∀ a b c e, d.judge a b c e = none) :
    ∀ l : List Database.Propuesta,
      l.foldl (DuplicateDetector.pasoComparacion d obs prop) (0, none) = (0, none) := by
  intro l
  induction l with
  | nil => rfl
  | cons p ps ih =>
    rw [List.foldl_cons]
    have hz := detectar_degradado d hd obs prop p.observacion_texto p.propuesta_texto
    have hpaso : DuplicateDetector.pasoComparacion d obs prop (0, none) p = (0, none) := by
      unfold DuplicateDetector.pasoComparacion
      simp [hz]
    rw [hpaso, ih]

/-- The detector constructed when `OPENAI_API_KEY` is set to the *empty*
string — the one falsy credential value that does not crash the constructor
— paired with a judge whose calls all fail. -/
def detectorSinClave : DuplicateDetector.Detector :=
  ⟨false, fun _ _ _ _ => none⟩

/-- C5 counterexample: in the claim's "unconfigured (no API credential)"
case — the `OPENAI_API_KEY` environment variable entirely unset — the
detector constructor itself raises (`OpenAI(api_key=None)` raises
`OpenAIError` before `use_ai` is ever assigned), so no classification runs,
let alone completes without raising; the module-level
`detector = DuplicateDetector()` turns this into an import-time crash. -/
theorem claim_C5_contraejemplo :
    DuplicateDetector.construirDetector none (fun _ _ _ _ => none) =
      .error .openAIError := rfl

/-- C5 (amended): with `OPENAI_API_KEY` entirely unset the detector
constructor raises and no classification ever runs (first conjunct); with
the variable set to the empty string — a falsy credential the client
accepts — construction succeeds with `use_ai = false` (second conjunct);
and for any detector whose judge is disabled or whose every call fails,
each pairwise comparison returns score 0 with both flags false, so any
tuple with no exact fingerprint match in its (entity, funding source) scope
is classified `insertar` — similarity 0, no matched id, every flag false —
and the classification is a total function (third conjunct). -/
theorem claim_C5_degradacion_sin_juez :
    (∀ judge, DuplicateDetector.construirDetector none judge =
      .error .openAIError) ∧
    (∀ judge, DuplicateDetector.construirDetector (some "") judge =
      .ok { use_ai := false, judge := judge }) ∧
    (∀ (d : DuplicateDetector.Detector) (s : Database.Store) (ente_id fuente_id : Nat)
      (obs : Option String) (prop : String) (obsH : Option String) (propH : String),
      (d.use_ai = false ∨ ∀ a b c e, d.judge a b c e = none) →
      Database.buscar_propuesta_existente s
        (Database.calcular_hash (obs.getD "") prop) ente_id fuente_id = none →
      DuplicateDetector.verificar_propuesta d s ente_id fuente_id obs prop obsH propH =
        DuplicateDetector.verificacionNueva 0 ∧
      (DuplicateDetector.verificacionNueva 0).accion_recomendada = "insertar" ∧
      (DuplicateDetector.verificacionNueva 0).es_duplicado_exacto = false ∧
      (DuplicateDetector.verificacionNueva 0).es_duplicado_semantico = false ∧
      (DuplicateDetector.verificacionNueva 0).es_nueva_version = false ∧
      (DuplicateDetector.verificacionNueva 0).propuesta_existente_id = none ∧
      (DuplicateDetector.verificacionNueva 0).similitud = 0) := by
  refine ⟨fun _ => rfl, fun _ => rfl, ?_⟩
  intro d s ente_id fuente_id obs prop obsH propH hd hb
  refine ⟨?_, rfl, rfl, rfl, rfl, rfl, rfl⟩
  unfold DuplicateDetector.verificar_propuesta
  simp only [hb, fold_comparacion_cero d obs prop hd]

/-- C5 witness: the construction conjunct applied to the always-failing
judge (yielding `detectorSinClave`), and the classification conjunct
applied to that detector on the fresh store. -/
theorem claim_C5_testigo :
    DuplicateDetector.construirDetector (some "") (fun _ _ _ _ => none) =
      .ok detectorSinClave ∧
    DuplicateDetector.verificar_propuesta detectorSinClave Database.Store.vacio 1 1
      (some "Obs") "Prop" none "<p>" = DuplicateDetector.verificacionNueva 0 ∧
    (DuplicateDetector.verificacionNueva 0).accion_recomendada = "insertar" :=
  ⟨claim_C5_degradacion_sin_juez.2.1 (fun _ _ _ _ => none),
   (claim_C5_degradacion_sin_juez.2.2 detectorSinClave Database.Store.vacio 1 1
     (some "Obs") "Prop" none "<p>" (Or.inl rfl) rfl).1,
   (claim_C5_degradacion_sin_juez.2.2 detectorSinClave Database.Store.vacio 1 1
     (some "Obs") "Prop" none "<p>" (Or.inl rfl) rfl).2.1⟩

/-- The initial snapshot row of the store the spec intends the first C2
submission to produce. -/
def c2_version : Database.VersionPropuesta :=
  { id := 1, propuesta_id := 1, version := 1, observacion_texto := some "Obs B",
    propuesta_texto := "Prop B", observacion_html := none, propuesta_html := "<p>Prop B</p>",
    motivo_cambio := "Versión inicial",
    hash_contenido := Database.calcular_hash "Obs B" "Prop B" }

/-- The proposal row of the store the spec intends the first C2 submission
to produce (entity 1, funding source 1). -/
def c2_fila : Database.Propuesta :=
  { id := 1, ente_id := 1, fuente_financiamiento_id := 1, numero := 1,
    observacion_texto := some "Obs B", propuesta_texto := "Prop B",
    observacion_html := none, propuesta_html := "<p>Prop B</p>",
    archivo_origen := none, tipo_archivo := none, hoja_origen := none,
    hash_contenido := Database.calcular_hash "Obs B" "Prop B", version_actual := 1,
    es_duplicado := false, propuesta_original_id := none }

/-- The store the spec intends the first C2 submission to produce.
Hypothetical: no insert ever commits, so no run of the program reaches this
store. -/
def c2_fin : Database.Store := ⟨[c2_fila], [c2_version], 2, 2⟩

/-- C2 refutation: the first submission is never stored — its insert raises
`database is locked` and rolls back (first conjunct) — so the second,
identical submission still finds no stored row and is classified
`insertar`, not `marcar_duplicado`, leaving zero rows for the tuple instead
of exactly one (second conjunct).  The exact-duplicate classification
itself would behave as claimed if a row were ever stored: on the store the
first submission was intended to produce, the identical tuple is classified
`marcar_duplicado` against row 1 (remaining conjuncts) — the broken half is
persistence, not the fingerprint lookup. -/
theorem claim_C2_reenvio_sin_primera_insercion :
    Database.insertar_propuesta Database.Store.vacio 1 1 1 (some "Obs B") "Prop B" none
      "<p>Prop B</p>" none none none =
      (.error .databaseLocked, Database.Store.vacio) ∧
    (DuplicateDetector.verificar_propuesta detectorSinClave Database.Store.vacio 1 1
      (some "Obs B") "Prop B" none "<p>Prop B</p>").accion_recomendada = "insertar" ∧
    (DuplicateDetector.verificar_propuesta detectorSinClave c2_fin 1 1
      (some "Obs B") "Prop B" none "<p>Prop B</p>").es_duplicado_exacto = true ∧
    (DuplicateDetector.verificar_propuesta detectorSinClave c2_fin 1 1
      (some "Obs B") "Prop B" none "<p>Prop B</p>").accion_recomendada =
      "marcar_duplicado" ∧
    (DuplicateDetector.verificar_propuesta detectorSinClave c2_fin 1 1
      (some "Obs B") "Prop B" none "<p>Prop B</p>").propuesta_existente_id = some 1 := by
  have hbuscar : Database.buscar_propuesta_existente c2_fin
      (Database.calcular_hash "Obs B" "Prop B") 1 1 = some c2_fila := by
    simp [Database.buscar_propuesta_existente, c2_fin, c2_fila]
  refine ⟨rfl, rfl, ?_, ?_, ?_⟩
  · simp only [DuplicateDetector.verificar_propuesta, Option.getD_some]
    rw [hbuscar]
  · simp only [DuplicateDetector.verificar_propuesta, Option.getD_some]
    rw [hbuscar]
  · simp only [DuplicateDetector.verificar_propuesta, Option.getD_some]
    rw [hbuscar]
    rfl

/-- The initial snapshot row of the store the spec intends the C3 insert to
produce. -/
def c3_version : Database.VersionPropuesta :=
  { id := 1, propuesta_id := 1, version := 1, observacion_texto := some "Obs D",
    propuesta_texto := "Prop D", observacion_html := none, propuesta_html := "<p>D</p>",
    motivo_cambio := "Versión inicial",
    hash_contenido := Database.calcular_hash "Obs D" "Prop D" }

/-- The proposal row of the store the spec intends the C3 insert to produce
(entity 8, funding source 9). -/
def c3_fila : Database.Propuesta :=
  { id := 1, ente_id := 8, fuente_financiamiento_id := 9, numero := 1,
    observacion_texto := some "Obs D", propuesta_texto := "Prop D",
    observacion_html := none, propuesta_html := "<p>D</p>",
    archivo_origen := none, tipo_archivo := none, hoja_origen := none,
    hash_contenido := Database.calcular_hash "Obs D" "Prop D", version_actual := 1,
    es_duplicado := false, propuesta_original_id := none }

/-- The store the spec intends the C3 insert to produce.  Hypothetical: no
insert ever commits. -/
def c3_s1 : Database.Store := ⟨[c3_fila], [c3_version], 2, 2⟩

/-- C3 refutation: no new-version update is ever accepted, so no version
counter is ever incremented and no snapshot is ever appended.  The insert
that should create the version-1 row already raises and commits nothing
(first conjunct); and even on the store that insert was intended to
produce, the update raises `database is locked` instead of returning
version 2 — the committed store still carries `version_actual = 1` and its
single hypothetical snapshot (second and third conjuncts). -/
theorem claim_C3_ninguna_version_aceptada :
    Database.insertar_propuesta Database.Store.vacio 8 9 1 (some "Obs D") "Prop D" none
      "<p>D</p>" none none none = (.error .databaseLocked, Database.Store.vacio) ∧
    Database.actualizar_propuesta_con_version c3_s1 1 (some "Obs D") "Prop D v2" none
      "<p>D2</p>" "mejora" = (.error .databaseLocked, c3_s1) ∧
    (Database.filaDe c3_s1 1).map (fun p => p.version_actual) = some 1 := by
  exact ⟨rfl, rfl, rfl⟩

/-- The proposal row of the hypothetical one-row store used to evaluate the
present-id half of C10. -/
def c10_fila1 : Database.Propuesta :=
  { id := 1, ente_id := 1, fuente_financiamiento_id := 1, numero := 1,
    observacion_texto := none, propuesta_texto := "Texto A",
    observacion_html := none, propuesta_html := "<p>A</p>",
    archivo_origen := none, tipo_archivo := none, hoja_origen := none,
    hash_contenido := Database.calcular_hash "" "Texto A", version_actual := 1,
    es_duplicado := false, propuesta_original_id := none }

/-- The initial snapshot of the C10 row. -/
def c10_v1 : Database.VersionPropuesta :=
  { id := 1, propuesta_id := 1, version := 1, observacion_texto := none,
    propuesta_texto := "Texto A", observacion_html := none, propuesta_html := "<p>A</p>",
    motivo_cambio := "Versión inicial",
    hash_contenido := Database.calcular_hash "" "Texto A" }

/-- The hypothetical one-row store for C10 (no insert ever commits it). -/
def c10_s1 : Database.Store := ⟨[c10_fila1], [c10_v1], 2, 2⟩

/-- C10: the absent-id half behaves as claimed — the `SELECT` returns no
row, dereferencing it raises, and nothing is written (first half); but the
present-id half never holds: the operation never returns the incremented
version number — it raises on every input (the nested connection's lock
error, or a fingerprint `UNIQUE` violation even earlier) and the committed
store is unchanged (second half). -/
theorem claim_C10_actualizacion_nunca_retorna :
    (∀ (s : Database.Store) (pid : Nat) (obs : Option String) (prop : String)
      (obsH : Option String) (propH motivo : String),
      Database.filaDe s pid = none →
      Database.actualizar_propuesta_con_version s pid obs prop obsH propH motivo =
        (.error .missingRow, s)) ∧
    (∀ (s : Database.Store) (pid : Nat) (obs : Option String) (prop : String)
      (obsH : Option String) (propH motivo : String) (fila : Database.Propuesta),
      Database.filaDe s pid = some fila →
      ∃ err, Database.actualizar_propuesta_con_version s pid obs prop obsH propH motivo =
        (.error err, s)) := by
  constructor
  · intro s pid obs prop obsH propH motivo hf
    unfold Database.filaDe at hf
    simp only [Database.actualizar_propuesta_con_version]
    rw [hf]
  · intro s pid obs prop obsH propH motivo fila hf
    exact actualizar_siempre_falla s pid obs prop obsH propH motivo

/-- C10 witness: the absent-id half applied at the fresh store and id 7,
and the present-id half applied at the hypothetical one-row store and
id 1. -/
theorem claim_C10_testigo :
    Database.actualizar_propuesta_con_version Database.Store.vacio 7 none "X" none "" "m"
      = (.error .missingRow, Database.Store.vacio) ∧
    ∃ err, Database.actualizar_propuesta_con_version c10_s1 1 none "Texto C" none
      "<p>C</p>" "m" = (.error err, c10_s1) :=
  ⟨claim_C10_actualizacion_nunca_retorna.1 Database.Store.vacio 7 none "X" none "" "m" rfl,
   claim_C10_actualizacion_nunca_retorna.2 c10_s1 1 none "Texto C" none "<p>C</p>" "m"
     c10_fila1 rfl⟩

/-- Every candidate the DOCX row scan emits carries a non-blank captured
proposal rendering, the running number it was emitted under, and the
sentinel when no (or only an empty) observation was captured. -/
theorem candidatoDeFila_props (n : Nat) (cells : List DOCXProcessorOptimized.Cell)
    (c : DOCXProcessorOptimized.DocxCandidato)
    (h : DOCXProcessorOptimized.candidatoDeFila n cells = some c) :
    ¬(pyStrip c.propuesta_html = "") ∧ c.numero = n ∧
    (((DOCXProcessorOptimized.escanearFila cells).observacion = none ∨
      (DOCXProcessorOptimized.escanearFila cells).observacion = some "") →
      c.observacion_texto = "Sin observación") := by
  simp only [DOCXProcessorOptimized.candidatoDeFila] at h
  split at h
  · simp at h
  · rename_i html hhtml
    split at h
    · simp at h
    · rename_i hguard
      rw [Bool.or_eq_true, not_or] at hguard
      simp only [Option.some.injEq] at h
      subst h
      refine ⟨?_, rfl, ?_⟩
      · intro hs
        exact hguard.2 (by simp [hs])
      · intro hobs
        rcases hobs with hobs | hobs <;> simp [hobs]

/-- Every candidate the XLSX row scan emits carries a non-empty cleaned
proposal text, the running number it was emitted under, and the sentinel
when no (or only an empty) observation was captured. -/
theorem procesarFilaX_props (hoja : String) (n i : Nat)
    (row : List XLSXProcessorOptimized.XCell) (c : XLSXProcessorOptimized.XlsxCandidato)
    (h : XLSXProcessorOptimized.procesarFilaX hoja n i row = some c) :
    ¬(c.propuesta_texto = "") ∧ c.numero = n ∧
    (∀ idx, XLSXProcessorOptimized.primeraColumnaPropuesta row = some idx →
      (XLSXProcessorOptimized.observacionCapturada row idx = none ∨
        (XLSXProcessorOptimized.observacionCapturada row idx).map Prod.fst = some "") →
      c.observacion_texto = "Sin observación") := by
  simp only [XLSXProcessorOptimized.procesarFilaX] at h
  split at h
  · simp at h
  · rename_i idx0 hidx0
    split at h
    · rename_i hguard
      rw [Bool.and_eq_true] at hguard
      simp only [Option.some.injEq] at h
      subst h
      refine ⟨?_, rfl, ?_⟩
      · intro hs
        simp only at hs
        have h1 := hguard.1
        rw [hs] at h1
        simp at h1
      · intro idx hidx hobs
        have hii : idx0 = idx := Option.some.inj (hidx0.symm.trans hidx)
        subst hii
        rcases hobs with hobs | hobs
        · simp only [hobs]
        · cases ho : XLSXProcessorOptimized.observacionCapturada row idx0 with
          | none => simp only [ho]
          | some par =>
            rw [ho] at hobs
            cases par with
            | mk o oh =>
              simp only [Option.map_some', Option.some.injEq] at hobs
              subst hobs
              simp [ho]
    · simp at h

/-- The running-number invariant of the extraction folds: the accumulated
candidates are numbered `1 .. length` in order and the counter stands at
`length + 1`. -/
def invNumeracion {β : Type} (numero : β → Nat) (acc : Nat × List β) : Prop :=
  acc.1 = 1 + acc.2.length ∧ acc.2.map numero = List.range' 1 acc.2.length

/-- A fold step that either keeps the accumulator or appends one candidate
numbered with the counter (incrementing it) preserves the numbering
invariant. -/
theorem invNumeracion_paso {α β : Type} (numero : β → Nat)
    (paso : Nat × List β → α → Nat × List β)
    (hpaso : ∀ acc a, paso acc a = acc ∨
      ∃ c, numero c = acc.1 ∧ paso acc a = (acc.1 + 1, acc.2 ++ [c]))
    (acc : Nat × List β) (a : α) (hinv : invNumeracion numero acc) :
    invNumeracion numero (paso acc a) := by
  rcases hpaso acc a with h | ⟨c, hc, h⟩
  · rw [h]
    exact hinv
  · rw [h]
    obtain ⟨h1, h2⟩ := hinv
    constructor
    · simp only [List.length_append, List.length_cons, List.length_nil]
      omega
    · simp only [List.map_append, List.map_cons, List.map_nil, List.length_append,
        List.length_cons, List.length_nil]
      rw [h2, hc, h1]
      rw [show acc.2.length + (0 + 1) = acc.2.length + 1 from by omega, List.range'_concat]
      simp only [List.append_cancel_left_eq, List.cons.injEq, and_true]
      omega

/-- Folding with an invariant-preserving step preserves the invariant. -/
theorem invNumeracion_foldl {α β : Type} (numero : β → Nat)
    (paso : Nat × List β → α → Nat × List β)
    (hpaso : ∀ acc a, invNumeracion numero acc → invNumeracion numero (paso acc a)) :
    ∀ (l : List α) (acc : Nat × List β),
      invNumeracion numero acc → invNumeracion numero (l.foldl paso acc) := by
  intro l
  induction l with
  | nil => intro acc h; exact h
  | cons a as ih =>
    intro acc h
    rw [List.foldl_cons]
    exact ih _ (hpaso acc a h)

/-- The DOCX row step keeps or appends-and-increments. -/
theorem pasoFila_alternativa (acc : Nat × List DOCXProcessorOptimized.DocxCandidato)
    (row : DOCXProcessorOptimized.Row) :
    DOCXProcessorOptimized.pasoFila acc row = acc ∨
    ∃ c, c.numero = acc.1 ∧
      DOCXProcessorOptimized.pasoFila acc row = (acc.1 + 1, acc.2 ++ [c]) := by
  unfold DOCXProcessorOptimized.pasoFila
  cases h : DOCXProcessorOptimized.candidatoDeFila acc.1 row.cells with
  | none => left; rfl
  | some c => right; exact ⟨c, (candidatoDeFila_props acc.1 row.cells c h).2.1, rfl⟩

/-- The XLSX row step keeps or appends-and-increments. -/
theorem pasoFilaX_alternativa (hoja : String)
    (acc : Nat × List XLSXProcessorOptimized.XlsxCandidato)
    (par : Nat × List XLSXProcessorOptimized.XCell) :
    XLSXProcessorOptimized.pasoFilaX hoja acc par = acc ∨
    ∃ c, c.numero = acc.1 ∧
      XLSXProcessorOptimized.pasoFilaX hoja acc par = (acc.1 + 1, acc.2 ++ [c]) := by
  unfold XLSXProcessorOptimized.pasoFilaX
  cases h : XLSXProcessorOptimized.procesarFilaX hoja acc.1 par.1 par.2 with
  | none => left; rfl
  | some c => right; exact ⟨c, (procesarFilaX_props hoja acc.1 par.1 par.2 c h).2.1, rfl⟩

/-- C8: (i) every DOCX candidate has a non-blank captured proposal, carries
its emission number, and defaults a missing/empty observation to the
`"Sin observación"` sentinel — in particular a row capturing no non-blank
proposal yields no candidate; (ii) the DOCX extractor numbers its output
`1, 2, ...` consecutively across all tables of the document; (iii)–(iv) the
same for the XLSX extractor, whose single `numero_global` counter runs
across all sheets of the workbook. -/
theorem claim_C8_candidatos_numerados_y_validos :
    (∀ (n : Nat) (cells : List DOCXProcessorOptimized.Cell)
      (c : DOCXProcessorOptimized.DocxCandidato),
      DOCXProcessorOptimized.candidatoDeFila n cells = some c →
      ¬(pyStrip c.propuesta_html = "") ∧ c.numero = n ∧
      (((DOCXProcessorOptimized.escanearFila cells).observacion = none ∨
        (DOCXProcessorOptimized.escanearFila cells).observacion = some "") →
        c.observacion_texto = "Sin observación")) ∧
    (∀ doc : DOCXProcessorOptimized.DocxDoc,
      (DOCXProcessorOptimized.extraer_propuestas_estructuradas doc).map
          (fun c => c.numero) =
        List.range' 1 (DOCXProcessorOptimized.extraer_propuestas_estructuradas doc).length) ∧
    (∀ (hoja : String) (n i : Nat) (row : List XLSXProcessorOptimized.XCell)
      (c : XLSXProcessorOptimized.XlsxCandidato),
      XLSXProcessorOptimized.procesarFilaX hoja n i row = some c →
      ¬(c.propuesta_texto = "") ∧ c.numero = n ∧
      (∀ idx, XLSXProcessorOptimized.primeraColumnaPropuesta row = some idx →
        (XLSXProcessorOptimized.observacionCapturada row idx = none ∨
          (XLSXProcessorOptimized.observacionCapturada row idx).map Prod.fst = some "") →
        c.observacion_texto = "Sin observación")) ∧
    (∀ wb : XLSXProcessorOptimized.XWorkbook,
      (XLSXProcessorOptimized.extraer_propuestas_estructuradas wb).map
          (fun c => c.numero) =
        List.range' 1 (XLSXProcessorOptimized.extraer_propuestas_estructuradas wb).length) := by
  refine ⟨candidatoDeFila_props, ?_, procesarFilaX_props, ?_⟩
  · intro doc
    have hinv := invNumeracion_foldl (fun c => c.numero)
      (fun acc tabla => tabla.rows.foldl DOCXProcessorOptimized.pasoFila acc)
      (fun acc tabla h => invNumeracion_foldl (fun c => c.numero)
        DOCXProcessorOptimized.pasoFila
        (invNumeracion_paso (fun c => c.numero) DOCXProcessorOptimized.pasoFila
          pasoFila_alternativa)
        tabla.rows acc h)
      doc.tables (1, []) ⟨rfl, rfl⟩
    exact hinv.2
  · intro wb
    have hinv := invNumeracion_foldl (fun c => c.numero)
      (fun acc sh => sh.rows.enum.foldl (XLSXProcessorOptimized.pasoFilaX sh.name) acc)
      (fun acc sh h => invNumeracion_foldl (fun c => c.numero)
        (XLSXProcessorOptimized.pasoFilaX sh.name)
        (invNumeracion_paso (fun c => c.numero)
          (XLSXProcessorOptimized.pasoFilaX sh.name) (pasoFilaX_alternativa sh.name))
        sh.rows.enum acc h)
      wb.sheets (1, []) ⟨rfl, rfl⟩
    exact hinv.2

/-- The example DOCX row of the C8 witness: a keyword cell followed by a
content cell, with no observation column. -/
def c8_cells : List DOCXProcessorOptimized.Cell :=
  [⟨[⟨"Propuesta de Solventación", "<p>Propuesta de Solventación</p>"⟩], []⟩,
   ⟨[⟨"Presentar evidencia documental", "<p>Presentar evidencia documental</p>"⟩], []⟩]

/-- The candidate the DOCX scan emits for the C8 witness row. -/
def c8_cand : DOCXProcessorOptimized.DocxCandidato :=
  (DOCXProcessorOptimized.candidatoDeFila 1 c8_cells).getD ⟨0, "", "", "", "", ""⟩

/-- The example XLSX row of the C8 witness. -/
def c8_row : List XLSXProcessorOptimized.XCell :=
  [⟨.vstr "PROPUESTA DE SOLVENTACIÓN", "<td>kw</td>"⟩, ⟨.vstr "Hacer algo", "<td>Hacer algo</td>"⟩]

/-- The candidate the XLSX scan emits for the C8 witness row. -/
def c8_xcand : XLSXProcessorOptimized.XlsxCandidato :=
  (XLSXProcessorOptimized.procesarFilaX "SA" 1 0 c8_row).getD ⟨0, "", 0, "", "", "", "", ""⟩

/-- C8 witness: the four conjuncts applied at concrete inputs — the example
DOCX row (sentinel observation), a two-table example document, the example
XLSX row, and a two-sheet example workbook. -/
theorem claim_C8_testigo :
    (¬(pyStrip c8_cand.propuesta_html = "") ∧ c8_cand.numero = 1 ∧
      c8_cand.observacion_texto = "Sin observación") ∧
    ((DOCXProcessorOptimized.extraer_propuestas_estructuradas
        ⟨[⟨[⟨c8_cells⟩]⟩, ⟨[⟨c8_cells⟩, ⟨c8_cells⟩]⟩], []⟩).map (fun c => c.numero) =
      List.range' 1 3) ∧
    (¬(c8_xcand.propuesta_texto = "") ∧ c8_xcand.numero = 1 ∧
      c8_xcand.observacion_texto = "Sin observación") ∧
    ((XLSXProcessorOptimized.extraer_propuestas_estructuradas
        ⟨[⟨"SA", [c8_row]⟩, ⟨"R", [c8_row]⟩]⟩).map (fun c => c.numero) =
      List.range' 1 2) := by
  refine ⟨?_, ?_, ?_, ?_⟩
  · obtain ⟨h1, h2, h3⟩ :=
      claim_C8_candidatos_numerados_y_validos.1 1 c8_cells c8_cand (by exact rfl)
    exact ⟨h1, h2, h3 (Or.inl rfl)⟩
  · exact claim_C8_candidatos_numerados_y_validos.2.1
      ⟨[⟨[⟨c8_cells⟩]⟩, ⟨[⟨c8_cells⟩, ⟨c8_cells⟩]⟩], []⟩
  · obtain ⟨h1, h2, h3⟩ :=
      claim_C8_candidatos_numerados_y_validos.2.2.1 "SA" 1 0 c8_row c8_xcand (by exact rfl)
    exact ⟨h1, h2, h3 0 rfl (Or.inl rfl)⟩
  · exact claim_C8_candidatos_numerados_y_validos.2.2.2 ⟨[⟨"SA", [c8_row]⟩, ⟨"R", [c8_row]⟩]⟩

end Solventacion
